import Mathlib

/-!
Shallow embedding of the 4x5 camera light meter core
(`src/main/light_meter.c`, `src/main/adc_reader.c`).

Machine floats are modelled by `ℚ` for the computable pipeline
(aggregation, filtering, string formatting) and by the extended type
`FP` over `ℝ` where C float special values (`±inf`, `NaN`) are
observable (the `log2f` exposure step and the shutter-speed product).
C `int` is modelled by `ℤ`.
-/

namespace LightMeter

/-- Enum `metering_mode_t` from `light_meter.h`; the C enum's underlying
integer values, in declaration order. -/
def METERING_CENTER_WEIGHTED : ℤ := 0

/-- `METERING_MATRIX` enum value. -/
def METERING_MATRIX : ℤ := 1

/-- `METERING_SPOT` enum value. -/
def METERING_SPOT : ℤ := 2

/-- `METERING_HIGHLIGHT` enum value. -/
def METERING_HIGHLIGHT : ℤ := 3

/-- Struct `led_measurement_t` from `adc_reader.h`: raw ADC code,
derived voltage and derived lux for one zone. -/
structure LedMeasurement where
  adc_value : ℤ
  voltage : ℚ
  lux : ℚ

/-- A 5x4 grid of lux values (`float lux_matrix[5][4]`), row-major,
0-indexed as in the C code. -/
abbrev Grid := Fin 5 → Fin 4 → ℚ

/-- A 5x4 grid of detailed measurements (`led_measurement_t [5][4]`). -/
abbrev MeasGrid := Fin 5 → Fin 4 → LedMeasurement

/-- `set_metering_mode` (light_meter.c lines 27-37): rejects a mode
outside `[METERING_CENTER_WEIGHTED, METERING_HIGHLIGHT]`, otherwise
commits it.  The module-level variable `current_metering_mode` is made
explicit: the function maps (current state, argument) to
(returned bool, new state). -/
def set_metering_mode (cur mode : ℤ) : Bool × ℤ :=
  if mode < METERING_CENTER_WEIGHTED ∨ mode > METERING_HIGHLIGHT then
    (false, cur)
  else
    (true, mode)

/-- `set_shutter_speed_calibration` (light_meter.c lines 265-275):
rejects a non-positive calibration factor, otherwise commits it.
State passing as in `set_metering_mode`. -/
def set_shutter_speed_calibration (cur cal : ℚ) : Bool × ℚ :=
  if cal ≤ 0 then (false, cur) else (true, cal)

/-- Initial value of the module-level variable
`shutter_speed_calibration` (light_meter.c line 21: `0.0f`). -/
def shutter_speed_calibration_init : ℚ := 0

/-- ASCII `tolower` on one character, as `strcasecmp` applies it. -/
def lowerChar (c : Char) : Char :=
  if 'A' ≤ c ∧ c ≤ 'Z' then Char.ofNat (c.toNat + 32) else c

/-- ASCII lowercase of a whole string. -/
def lowerStr (s : String) : String := ⟨s.data.map lowerChar⟩

/-- `strcasecmp(a, b) == 0`: ASCII case-insensitive string equality. -/
def strcaseEq (a b : String) : Bool := lowerStr a == lowerStr b

/-- `get_metering_mode_from_name` (light_meter.c lines 60-84).  The C
`const char*` argument is `Option String` (`none` = `NULL`). -/
def get_metering_mode_from_name : Option String → ℤ
  | none => METERING_CENTER_WEIGHTED
  | some name =>
    if strcaseEq name "center" || strcaseEq name "central" ||
       strcaseEq name "center-weighted" then
      METERING_CENTER_WEIGHTED
    else if strcaseEq name "matrix" || strcaseEq name "evaluative" then
      METERING_MATRIX
    else if strcaseEq name "spot" then
      METERING_SPOT
    else if strcaseEq name "highlight" || strcaseEq name "highlights" then
      METERING_HIGHLIGHT
    else
      METERING_CENTER_WEIGHTED

/-- The per-zone weight of center-weighted metering
(light_meter.c lines 100-104): 2 on 0-indexed rows 1-3, cols 1-2,
else 1. -/
def centerWeight (r : Fin 5) (c : Fin 4) : ℚ :=
  if 1 ≤ (r : ℕ) ∧ (r : ℕ) ≤ 3 ∧ 1 ≤ (c : ℕ) ∧ (c : ℕ) ≤ 2 then 2 else 1

/-- The inner loop of the insertion sort in the highlight branch
(light_meter.c lines 149-157): insert `key` into an already
descending-sorted list, shifting past the elements `< key`. -/
def cInsert (key : ℚ) : List ℚ → List ℚ
  | [] => [key]
  | y :: l => if y < key then key :: y :: l else y :: cInsert key l

/-- The full insertion sort of the highlight branch: fold `cInsert`
over the readings left to right, as the C `for` loop does. -/
def cSortDesc (l : List ℚ) : List ℚ :=
  l.foldl (fun acc x => cInsert x acc) []

/-- The flat `readings[20]` array collected row-major from the grid
(light_meter.c lines 139-146). -/
def flatten (g : Grid) : List ℚ :=
  (List.finRange 5).flatMap (fun r => (List.finRange 4).map (g r))

/-- The `switch (mode)` of `calculate_ev` (light_meter.c lines 95-168):
per-mode `(total_lux, count)` accumulation.  A mode value outside the
enum falls through the switch leaving both accumulators at 0. -/
def aggregate (g : Grid) (mode : ℤ) : ℚ × ℚ :=
  if mode = METERING_CENTER_WEIGHTED then
    (∑ r : Fin 5, ∑ c : Fin 4, g r c * centerWeight r c,
     ∑ r : Fin 5, ∑ c : Fin 4, centerWeight r c)
  else if mode = METERING_MATRIX then
    (∑ r : Fin 5, ∑ c : Fin 4, g r c,
     ∑ _r : Fin 5, ∑ _c : Fin 4, (1 : ℚ))
  else if mode = METERING_SPOT then
    (g 2 1 + g 2 2, 2)
  else if mode = METERING_HIGHLIGHT then
    (((cSortDesc (flatten g)).take 5).sum, 5)
  else
    (0, 0)

/-- `average_lux` (light_meter.c line 171):
`(count > 0) ? (total_lux / count) : 0.0f`. -/
def average_lux (g : Grid) (mode : ℤ) : ℚ :=
  let t := aggregate g mode
  if 0 < t.2 then t.1 / t.2 else 0

/-- The per-zone filtering step of `calculate_ev_from_detailed`
(light_meter.c lines 189-208): a saturated ADC code (`>= 4090`) is
forced to 0 first; otherwise a lux below the 10-lux noise floor is
forced to 0; otherwise the lux passes through. -/
def filter_zone (adc : ℤ) (lux : ℚ) : ℚ :=
  if adc ≥ 4090 then 0
  else if lux < 10 then 0
  else lux

/-- The `lux_matrix` built by `calculate_ev_from_detailed` from the
detailed measurements. -/
def filter_grid (m : MeasGrid) : Grid :=
  fun r c => filter_zone (m r c).adc_value (m r c).lux

/-- IEEE-754 float value classes as computed by the C code: NaN, the
two infinities, and a finite value (its real value; rounding is not
modelled). -/
inductive FP where
  | nan : FP
  | neginf : FP
  | posinf : FP
  | fin : ℝ → FP

open scoped Classical in
/-- C `log2f`: `-inf` at `+0`, NaN on negative input and on `-inf`,
`+inf` at `+inf`, otherwise the real base-2 logarithm. -/
noncomputable def log2F : FP → FP
  | .fin x => if 0 < x then .fin (Real.logb 2 x)
              else if x = 0 then .neginf else .nan
  | .posinf => .posinf
  | .neginf => .nan
  | .nan => .nan

/-- C99 `fminf`: if one operand is NaN the other is returned,
otherwise the smaller in the extended order. -/
noncomputable def fminF : FP → FP → FP
  | .nan, b => b
  | a, .nan => a
  | .neginf, _ => .neginf
  | _, .neginf => .neginf
  | .posinf, b => b
  | a, .posinf => a
  | .fin a, .fin b => .fin (min a b)

/-- C99 `fmaxf`: if one operand is NaN the other is returned,
otherwise the larger in the extended order. -/
noncomputable def fmaxF : FP → FP → FP
  | .nan, b => b
  | a, .nan => a
  | .posinf, _ => .posinf
  | _, .posinf => .posinf
  | .neginf, b => b
  | a, .neginf => a
  | .fin a, .fin b => .fin (max a b)

open scoped Classical in
/-- IEEE float multiplication restricted to the shapes the shutter
computation can produce: finite times finite is finite, an infinity
times zero is NaN, an infinity times a nonzero finite keeps or flips
sign, NaN poisons everything. -/
noncomputable def mulF : FP → FP → FP
  | .nan, _ => .nan
  | _, .nan => .nan
  | .fin a, .fin b => .fin (a * b)
  | .posinf, .posinf => .posinf
  | .posinf, .neginf => .neginf
  | .neginf, .posinf => .neginf
  | .neginf, .neginf => .posinf
  | .posinf, .fin b => if 0 < b then .posinf else if b < 0 then .neginf else .nan
  | .neginf, .fin b => if 0 < b then .neginf else if b < 0 then .posinf else .nan
  | .fin a, .posinf => if 0 < a then .posinf else if a < 0 then .neginf else .nan
  | .fin a, .neginf => if 0 < a then .neginf else if a < 0 then .posinf else .nan

open scoped Classical in
/-- IEEE float division restricted to the shapes used here: a nonzero
finite over `+0` gives a signed infinity, `0/0` gives NaN, finite over
nonzero finite is exact, infinities and NaN as in IEEE-754. -/
noncomputable def divF : FP → FP → FP
  | .nan, _ => .nan
  | _, .nan => .nan
  | .fin a, .fin b =>
      if b = 0 then (if 0 < a then .posinf else if a < 0 then .neginf else .nan)
      else .fin (a / b)
  | .fin _, .posinf => .fin 0
  | .fin _, .neginf => .fin 0
  | .posinf, .fin b => if b < 0 then .neginf else .posinf
  | .neginf, .fin b => if b < 0 then .posinf else .neginf
  | .posinf, .posinf => .nan
  | .posinf, .neginf => .nan
  | .neginf, .posinf => .nan
  | .neginf, .neginf => .nan

/-- C `>=` on floats as a proposition: false whenever an operand is
NaN, otherwise the extended order. -/
def geF : FP → FP → Prop
  | .nan, _ => False
  | _, .nan => False
  | .posinf, _ => True
  | .neginf, .neginf => True
  | .neginf, _ => False
  | .fin _, .neginf => True
  | .fin _, .posinf => False
  | .fin a, .fin b => b ≤ a

/-- `calculate_ev` (light_meter.c lines 90-180): aggregate the grid
under the metering mode, average, and take `log2f(average / 2.5)`.
The averaging arithmetic is exact over `ℚ`; the logarithm lands in
`FP` because `log2f(0) = -inf`. -/
noncomputable def calculate_ev (g : Grid) (mode : ℤ) : FP :=
  log2F (.fin (((average_lux g mode / (5 / 2) : ℚ) : ℝ)))

/-- The clamp of `calculate_ev_from_detailed` (light_meter.c line 215):
`fmaxf(-6.0f, fminf(20.0f, ev))`. -/
noncomputable def clampEV (x : FP) : FP :=
  fmaxF (.fin (-6)) (fminF (.fin 20) x)

/-- `calculate_ev_from_detailed` (light_meter.c lines 185-218):
filter the measurements, compute the EV, clamp to [-6, 20]. -/
noncomputable def calculate_ev_from_detailed (m : MeasGrid) (mode : ℤ) : FP :=
  clampEV (calculate_ev (filter_grid m) mode)

/-- The aggregate-to-EV map factored out of the pipeline: what the EV
computation does to a given aggregate (average) lux. -/
noncomputable def ev_from_aggregate (q : ℚ) : FP :=
  clampEV (log2F (.fin ((q / (5 / 2) : ℚ) : ℝ)))

/-- `calculate_shutter_speed` (light_meter.c lines 228-240):
`powf(2, -ev) * (100 / iso) * shutter_speed_calibration`, with the
calibration state passed explicitly.  `iso` is an `int` converted to
float, so `iso = 0` divides by `+0`. -/
noncomputable def calculate_shutter_speed (cal : ℚ) (ev : ℚ) (iso : ℤ) : FP :=
  mulF (mulF (.fin ((2 : ℝ) ^ (-(ev : ℝ)))) (divF (.fin 100) (.fin (iso : ℝ))))
       (.fin (cal : ℝ))

/-- The branch condition of `get_exposure_recommendation`
(light_meter.c line 250): `shutter_speed >= 1.0f`. -/
noncomputable def recommendation_takes_seconds_branch (cal : ℚ) (ev : ℚ) (iso : ℤ) : Prop :=
  geF (calculate_shutter_speed cal ev iso) (.fin 1)

/-- C `roundf`: round half away from zero, as an integer result. -/
def roundHalfAway (q : ℚ) : ℤ :=
  if 0 ≤ q then ⌊q + 1 / 2⌋ else -⌊-q + 1 / 2⌋

/-- `printf`-style `%.1f`: the value rounded to one decimal digit,
rendered with exactly one digit after the point.  Rounding of a tie is
modelled half-up (the inputs of interest are away from ties). -/
def fmt1 (q : ℚ) : String :=
  let n : ℤ := ⌊10 * q + 1 / 2⌋
  (if n < 0 then "-" else "") ++
    toString (n.natAbs / 10) ++ "." ++ toString (n.natAbs % 10)

/-- The `snprintf` block of `get_exposure_recommendation`
(light_meter.c lines 250-258), as a function of the already computed
shutter seconds: the seconds rendering at `>= 1`, otherwise the
`1/round(1/s)` fraction rendering. -/
def format_recommendation (shutter : ℚ) (iso : ℤ) (ev : ℚ) : String :=
  if 1 ≤ shutter then
    "ISO " ++ toString iso ++ ", " ++ fmt1 shutter ++
      " seconds (EV: " ++ fmt1 ev ++ ")"
  else
    "ISO " ++ toString iso ++ ", 1/" ++ toString (roundHalfAway (1 / shutter)) ++
      " (EV: " ++ fmt1 ev ++ ")"

/-- `get_voltage_from_adc` (adc_reader.c lines 142-159), with the
ESP-IDF calibration handle made explicit: `some f` is an available
calibration mapping from raw code to millivolts, `none` is an absent
handle.  Codes `< 4000` use the calibration when available; otherwise
the linear `code * 3.3 / 4095` model with a full-scale clamp at
`code >= 4090`. -/
def get_voltage_from_adc (cali : Option (ℤ → ℤ)) (adc : ℤ) : ℚ :=
  match cali with
  | some f =>
      if adc < 4000 then (f adc : ℚ) / 1000
      else if adc ≥ 4090 then 33 / 10
      else (adc : ℚ) * (33 / 10) / 4095
  | none =>
      if adc ≥ 4090 then 33 / 10
      else (adc : ℚ) * (33 / 10) / 4095

/-! ### Properties of the highlight-mode insertion sort -/

lemma cInsert_perm (key : ℚ) : ∀ l : List ℚ, List.Perm (cInsert key l) (key :: l)
  | [] => List.Perm.refl _
  | y :: l => by
    unfold cInsert
    split
    · exact List.Perm.refl _
    · exact ((cInsert_perm key l).cons y).trans (List.Perm.swap key y l)

lemma sorted_cInsert (key : ℚ) :
    ∀ {l : List ℚ}, l.Sorted (· ≥ ·) → (cInsert key l).Sorted (· ≥ ·)
  | [], _ => List.sorted_singleton key
  | y :: l, h => by
    rcases List.sorted_cons.mp h with ⟨hy, hl⟩
    unfold cInsert
    split
    · rename_i hlt
      exact List.sorted_cons.mpr
        ⟨by
          intro b hb
          rcases List.mem_cons.mp hb with rfl | hb
          · exact le_of_lt hlt
          · exact le_trans (hy b hb) (le_of_lt hlt),
         h⟩
    · rename_i hge
      refine List.sorted_cons.mpr ⟨?_, sorted_cInsert key hl⟩
      intro b hb
      rcases List.mem_cons.mp ((cInsert_perm key l).mem_iff.mp hb) with rfl | hb
      · exact le_of_not_lt hge
      · exact hy b hb

lemma foldl_cInsert_perm :
    ∀ (l acc : List ℚ), List.Perm (l.foldl (fun acc x => cInsert x acc) acc) (l ++ acc)
  | [], _ => List.Perm.refl _
  | x :: l, acc => by
    have h1 := foldl_cInsert_perm l (cInsert x acc)
    have h2 : List.Perm (l ++ cInsert x acc) (l ++ x :: acc) :=
      (cInsert_perm x acc).append_left l
    have h3 : List.Perm (l ++ x :: acc) (x :: (l ++ acc)) := List.perm_middle
    exact ((h1.trans h2).trans h3).symm.symm

lemma foldl_cInsert_sorted :
    ∀ (l acc : List ℚ), acc.Sorted (· ≥ ·) →
      (l.foldl (fun acc x => cInsert x acc) acc).Sorted (· ≥ ·)
  | [], _, h => h
  | x :: l, acc, h => foldl_cInsert_sorted l (cInsert x acc) (sorted_cInsert x h)

lemma cSortDesc_perm (l : List ℚ) : List.Perm (cSortDesc l) l := by
  simpa using foldl_cInsert_perm l []

lemma sorted_cSortDesc (l : List ℚ) : (cSortDesc l).Sorted (· ≥ ·) :=
  foldl_cInsert_sorted l [] (List.sorted_nil)

/-- The C insertion sort computes exactly Mathlib's descending
insertion sort. -/
lemma cSortDesc_eq_insertionSort (l : List ℚ) :
    cSortDesc l = l.insertionSort (· ≥ ·) :=
  List.eq_of_perm_of_sorted
    ((cSortDesc_perm l).trans (List.perm_insertionSort (· ≥ ·) l).symm)
    (sorted_cSortDesc l)
    (List.sorted_insertionSort (· ≥ ·) l)

/-! ### Evaluation of the per-mode aggregates -/

lemma average_lux_spot (g : Grid) :
    average_lux g METERING_SPOT = (g 2 1 + g 2 2) / 2 := by
  simp [average_lux, aggregate, METERING_SPOT, METERING_CENTER_WEIGHTED,
    METERING_MATRIX]

lemma average_lux_highlight (g : Grid) :
    average_lux g METERING_HIGHLIGHT = ((cSortDesc (flatten g)).take 5).sum / 5 := by
  simp [average_lux, aggregate, METERING_HIGHLIGHT, METERING_CENTER_WEIGHTED,
    METERING_MATRIX, METERING_SPOT]

/-- Sorting is invariant under permutation of the input. -/
lemma cSortDesc_congr_perm {l l' : List ℚ} (h : List.Perm l l') :
    cSortDesc l = cSortDesc l' :=
  List.eq_of_perm_of_sorted
    (((cSortDesc_perm l).trans h).trans (cSortDesc_perm l').symm)
    (sorted_cSortDesc l) (sorted_cSortDesc l')

/-! ### Witness inputs: concrete grids -/

/-- A concrete grid: 100 lux on the two spot zones, 7 elsewhere. -/
def gridSpotA : Grid :=
  fun r c => if (r : ℕ) = 2 ∧ ((c : ℕ) = 1 ∨ (c : ℕ) = 2) then 100 else 7

/-- A second grid agreeing with `gridSpotA` on the two spot zones only. -/
def gridSpotB : Grid :=
  fun r c => if (r : ℕ) = 2 ∧ ((c : ℕ) = 1 ∨ (c : ℕ) = 2) then 100 else 993

/-- A grid with a single bright zone at the top-left corner. -/
def gridCornerTL : Grid :=
  fun r c => if (r : ℕ) = 0 ∧ (c : ℕ) = 0 then 500 else 0

/-- The same multiset of readings, with the bright zone moved to the
bottom-right corner. -/
def gridCornerBR : Grid :=
  fun r c => if (r : ℕ) = 4 ∧ (c : ℕ) = 3 then 500 else 0

/-! ### Claim theorems -/

/-- C2: in Spot mode the aggregate lux is the arithmetic mean of
exactly the two zones at 1-indexed row 3, columns 2 and 3 (0-indexed
`[2][1]` and `[2][2]`), and is unchanged when any of the other 18
zones take arbitrary values. -/
theorem spot_mode_mean_of_central_zones :
    (∀ g : Grid, average_lux g METERING_SPOT = (g 2 1 + g 2 2) / 2) ∧
    (∀ g g' : Grid, g 2 1 = g' 2 1 → g 2 2 = g' 2 2 →
      average_lux g METERING_SPOT = average_lux g' METERING_SPOT) := by
  refine ⟨fun g => average_lux_spot g, fun g g' h1 h2 => ?_⟩
  rw [average_lux_spot, average_lux_spot, h1, h2]

theorem spot_mode_mean_of_central_zones_witness :
    gridSpotA 2 1 = gridSpotB 2 1 ∧ gridSpotA 2 2 = gridSpotB 2 2 ∧
      average_lux gridSpotA METERING_SPOT = average_lux gridSpotB METERING_SPOT :=
  ⟨by decide, by decide,
    spot_mode_mean_of_central_zones.2 gridSpotA gridSpotB (by decide) (by decide)⟩

/-- C3: in Highlight mode the aggregate lux is the mean of the top 5
of the 20 values after a descending sort, and it is invariant under
every permutation of the 20 input values. -/
theorem highlight_mode_top_quarter_mean :
    (∀ g : Grid, average_lux g METERING_HIGHLIGHT =
      (((flatten g).insertionSort (· ≥ ·)).take 5).sum / 5) ∧
    (∀ g g' : Grid, List.Perm (flatten g) (flatten g') →
      average_lux g METERING_HIGHLIGHT = average_lux g' METERING_HIGHLIGHT) := by
  constructor
  · intro g
    rw [average_lux_highlight, cSortDesc_eq_insertionSort]
  · intro g g' h
    rw [average_lux_highlight, average_lux_highlight, cSortDesc_congr_perm h]

theorem highlight_mode_top_quarter_mean_witness :
    List.Perm (flatten gridCornerTL) (flatten gridCornerBR) ∧
      average_lux gridCornerTL METERING_HIGHLIGHT =
        average_lux gridCornerBR METERING_HIGHLIGHT :=
  ⟨by decide, highlight_mode_top_quarter_mean.2 gridCornerTL gridCornerBR (by decide)⟩

/-- C4: the filtering step forces a zone's lux to 0 when the ADC code
is `>= 4090` or the lux is below the 10-lux noise floor, and passes
the lux through unchanged in every other case. -/
theorem filter_zone_saturation_and_noise_floor :
    (∀ (adc : ℤ) (lux : ℚ), (4090 ≤ adc ∨ lux < 10) → filter_zone adc lux = 0) ∧
    (∀ (adc : ℤ) (lux : ℚ), adc < 4090 → 10 ≤ lux → filter_zone adc lux = lux) := by
  constructor
  · intro adc lux h
    rcases h with h | h
    · simp [filter_zone, h]
    · unfold filter_zone
      split
      · rfl
      · simp [h]
  · intro adc lux h1 h2
    unfold filter_zone
    rw [if_neg (by omega), if_neg (by exact not_lt.mpr h2)]

theorem filter_zone_saturation_and_noise_floor_witness :
    ((4090 ≤ (4095 : ℤ) ∨ (500 : ℚ) < 10) ∧ filter_zone 4095 500 = 0) ∧
      ((100 : ℤ) < 4090 ∧ (10 : ℚ) ≤ 50 ∧ filter_zone 100 50 = 50) :=
  ⟨⟨by decide, filter_zone_saturation_and_noise_floor.1 4095 500 (by decide)⟩,
   by decide, by decide,
   filter_zone_saturation_and_noise_floor.2 100 50 (by decide) (by decide)⟩

/-- C5: `set_shutter_speed_calibration` returns false and leaves the
stored value unchanged for every argument `<= 0`, and commits the new
value and returns true for every argument `> 0`. -/
theorem set_shutter_speed_calibration_validates :
    (∀ cur cal : ℚ, cal ≤ 0 → set_shutter_speed_calibration cur cal = (false, cur)) ∧
    (∀ cur cal : ℚ, 0 < cal → set_shutter_speed_calibration cur cal = (true, cal)) := by
  constructor
  · intro cur cal h
    simp [set_shutter_speed_calibration, h]
  · intro cur cal h
    simp [set_shutter_speed_calibration, not_le.mpr h]

theorem set_shutter_speed_calibration_validates_witness :
    ((-1 : ℚ) ≤ 0 ∧ set_shutter_speed_calibration 128 (-1) = (false, 128)) ∧
      ((0 : ℚ) < 64 ∧ set_shutter_speed_calibration 128 64 = (true, 64)) :=
  ⟨⟨by decide, set_shutter_speed_calibration_validates.1 128 (-1) (by decide)⟩,
   by decide, set_shutter_speed_calibration_validates.2 128 64 (by decide)⟩

/-- C6: `set_metering_mode` returns false and leaves the stored mode
unchanged for every value outside the four defined variants (0..3),
and commits the mode and returns true for each of the four. -/
theorem set_metering_mode_validates :
    (∀ cur mode : ℤ, (mode < METERING_CENTER_WEIGHTED ∨ METERING_HIGHLIGHT < mode) →
      set_metering_mode cur mode = (false, cur)) ∧
    (∀ cur mode : ℤ, METERING_CENTER_WEIGHTED ≤ mode → mode ≤ METERING_HIGHLIGHT →
      set_metering_mode cur mode = (true, mode)) := by
  constructor
  · intro cur mode h
    simp only [set_metering_mode]
    rw [if_pos]
    exact h
  · intro cur mode h1 h2
    simp only [set_metering_mode]
    rw [if_neg]
    push_neg
    exact ⟨h1, h2⟩

theorem set_metering_mode_validates_witness :
    (((7 : ℤ) < METERING_CENTER_WEIGHTED ∨ METERING_HIGHLIGHT < (7 : ℤ)) ∧
      set_metering_mode 2 7 = (false, 2)) ∧
    (METERING_CENTER_WEIGHTED ≤ (3 : ℤ) ∧ (3 : ℤ) ≤ METERING_HIGHLIGHT ∧
      set_metering_mode 2 3 = (true, 3)) :=
  ⟨⟨by decide, set_metering_mode_validates.1 2 7 (by decide)⟩,
   by decide, by decide, set_metering_mode_validates.2 2 3 (by decide) (by decide)⟩

/-- C7: `get_metering_mode_from_name` resolves names
case-insensitively — {center, central, center-weighted} to
CenterWeighted, {matrix, evaluative} to Matrix, {spot} to Spot,
{highlight, highlights} to Highlight (in particular "HIGHLIGHTS") —
and every other name, including NULL and the empty string, resolves to
CenterWeighted without error. -/
theorem mode_from_name_alias_resolution :
    (∀ s : String, lowerStr s ∈ ["center", "central", "center-weighted"] →
      get_metering_mode_from_name (some s) = METERING_CENTER_WEIGHTED) ∧
    (∀ s : String, lowerStr s ∈ ["matrix", "evaluative"] →
      get_metering_mode_from_name (some s) = METERING_MATRIX) ∧
    (∀ s : String, lowerStr s = "spot" →
      get_metering_mode_from_name (some s) = METERING_SPOT) ∧
    (∀ s : String, lowerStr s ∈ ["highlight", "highlights"] →
      get_metering_mode_from_name (some s) = METERING_HIGHLIGHT) ∧
    get_metering_mode_from_name (some "HIGHLIGHTS") = METERING_HIGHLIGHT ∧
    (∀ s : String, lowerStr s ∉ ["center", "central", "center-weighted", "matrix",
        "evaluative", "spot", "highlight", "highlights"] →
      get_metering_mode_from_name (some s) = METERING_CENTER_WEIGHTED) ∧
    get_metering_mode_from_name none = METERING_CENTER_WEIGHTED ∧
    get_metering_mode_from_name (some "") = METERING_CENTER_WEIGHTED := by
  have e1 : lowerStr "center" = "center" := by decide
  have e2 : lowerStr "central" = "central" := by decide
  have e3 : lowerStr "center-weighted" = "center-weighted" := by decide
  have e4 : lowerStr "matrix" = "matrix" := by decide
  have e5 : lowerStr "evaluative" = "evaluative" := by decide
  have e6 : lowerStr "spot" = "spot" := by decide
  have e7 : lowerStr "highlight" = "highlight" := by decide
  have e8 : lowerStr "highlights" = "highlights" := by decide
  refine ⟨?_, ?_, ?_, ?_, by decide, ?_, by decide, by decide⟩
  · intro s hs
    simp only [List.mem_cons, List.not_mem_nil, or_false] at hs
    rcases hs with h | h | h <;>
      simp [get_metering_mode_from_name, strcaseEq, e1, e2, e3, h]
  · intro s hs
    simp only [List.mem_cons, List.not_mem_nil, or_false] at hs
    rcases hs with h | h <;>
      simp [get_metering_mode_from_name, strcaseEq, e1, e2, e3, e4, e5, h]
  · intro s h
    simp [get_metering_mode_from_name, strcaseEq, e1, e2, e3, e4, e5, e6, h]
  · intro s hs
    simp only [List.mem_cons, List.not_mem_nil, or_false] at hs
    rcases hs with h | h <;>
      simp [get_metering_mode_from_name, strcaseEq, e1, e2, e3, e4, e5, e6, e7, e8, h]
  · intro s hs
    simp only [List.mem_cons, List.not_mem_nil, or_false, not_or] at hs
    obtain ⟨h1, h2, h3, h4, h5, h6, h7, h8⟩ := hs
    simp [get_metering_mode_from_name, strcaseEq, e1, e2, e3, e4, e5, e6, e7, e8,
      h1, h2, h3, h4, h5, h6, h7, h8]

theorem mode_from_name_alias_resolution_witness :
    (lowerStr "MATRIX" ∈ ["matrix", "evaluative"] ∧
      get_metering_mode_from_name (some "MATRIX") = METERING_MATRIX) ∧
    (lowerStr "bogus" ∉ ["center", "central", "center-weighted", "matrix",
        "evaluative", "spot", "highlight", "highlights"] ∧
      get_metering_mode_from_name (some "bogus") = METERING_CENTER_WEIGHTED) :=
  ⟨⟨by decide, mode_from_name_alias_resolution.2.1 "MATRIX" (by decide)⟩,
   by decide, mode_from_name_alias_resolution.2.2.2.2.2.1 "bogus" (by decide)⟩

/-- Evaluation of `fmt1` once the rounded value is known. -/
lemma fmt1_eval {q : ℚ} {n : ℤ} (h : ⌊10 * q + 1 / 2⌋ = n) :
    fmt1 q = (if n < 0 then "-" else "") ++
      toString (n.natAbs / 10) ++ "." ++ toString (n.natAbs % 10) := by
  simp only [fmt1, h]

/-- Evaluation of `roundHalfAway` on a nonnegative argument. -/
lemma roundHalfAway_eval {q : ℚ} {n : ℤ} (h1 : 0 ≤ q) (h2 : ⌊q + 1 / 2⌋ = n) :
    roundHalfAway q = n := by
  simp only [roundHalfAway, if_pos h1, h2]

/-- C8: the recommendation formatter renders
`"ISO {ISO}, {seconds to 1 decimal} seconds (EV: {EV to 1 decimal})"`
when the computed shutter seconds is `>= 1`, and
`"ISO {ISO}, 1/{round(1/seconds)} (EV: {EV to 1 decimal})"` otherwise;
at seconds = 0.005, iso = 100, ev = 10.0 it renders
`"ISO 100, 1/200 (EV: 10.0)"`. -/
theorem recommendation_format :
    (∀ (s : ℚ) (iso : ℤ) (ev : ℚ), 1 ≤ s →
      format_recommendation s iso ev =
        "ISO " ++ toString iso ++ ", " ++ fmt1 s ++
          " seconds (EV: " ++ fmt1 ev ++ ")") ∧
    (∀ (s : ℚ) (iso : ℤ) (ev : ℚ), 0 < s → s < 1 →
      format_recommendation s iso ev =
        "ISO " ++ toString iso ++ ", 1/" ++ toString (roundHalfAway (1 / s)) ++
          " (EV: " ++ fmt1 ev ++ ")") ∧
    format_recommendation (5 / 1000) 100 10 = "ISO 100, 1/200 (EV: 10.0)" := by
  refine ⟨fun s iso ev h => by simp [format_recommendation, h],
          fun s iso ev _h0 h1 => by simp [format_recommendation, not_le.mpr h1],
          ?_⟩
  simp only [format_recommendation]
  rw [if_neg (by norm_num), show (1 : ℚ) / (5 / 1000) = 200 by norm_num,
    roundHalfAway_eval (by norm_num) (by norm_num : ⌊(200 : ℚ) + 1 / 2⌋ = 200),
    fmt1_eval (by norm_num : ⌊10 * (10 : ℚ) + 1 / 2⌋ = 100)]
  decide

theorem recommendation_format_witness :
    ((1 : ℚ) ≤ 2 ∧
      format_recommendation 2 100 5 = "ISO 100, 2.0 seconds (EV: 5.0)") ∧
    ((0 : ℚ) < 1 / 250 ∧ (1 / 250 : ℚ) < 1 ∧
      format_recommendation (1 / 250) 200 8 = "ISO 200, 1/250 (EV: 8.0)") := by
  refine ⟨⟨by norm_num, (recommendation_format.1 2 100 5 (by norm_num)).trans ?_⟩,
          by norm_num, by norm_num,
          (recommendation_format.2.1 (1 / 250) 200 8 (by norm_num) (by norm_num)).trans ?_⟩
  · rw [fmt1_eval (by norm_num : ⌊10 * (2 : ℚ) + 1 / 2⌋ = 20),
      fmt1_eval (by norm_num : ⌊10 * (5 : ℚ) + 1 / 2⌋ = 50)]
    decide
  · rw [show (1 : ℚ) / (1 / 250) = 250 by norm_num,
      roundHalfAway_eval (by norm_num) (by norm_num : ⌊(250 : ℚ) + 1 / 2⌋ = 250),
      fmt1_eval (by norm_num : ⌊10 * (8 : ℚ) + 1 / 2⌋ = 80)]
    decide

/-- The linear ADC-to-voltage model is monotone. -/
lemma linear_voltage_mono {a b : ℤ} (h : a ≤ b) :
    (a : ℚ) * (33 / 10) / 4095 ≤ (b : ℚ) * (33 / 10) / 4095 := by
  have : (a : ℚ) ≤ (b : ℚ) := by exact_mod_cast h
  have := mul_le_mul_of_nonneg_right this (by norm_num : (0 : ℚ) ≤ 33 / 10)
  exact div_le_div_of_nonneg_right this (by norm_num) |>.trans_eq rfl

/-- C9 counterexample: with a calibration mapping that is available but
reports full scale (3300 mV) on every code below 4000, the voltage
drops when the code crosses the 4000 handover boundary, so
`get_voltage_from_adc` is not monotonic on `[0, 4089]` for every
available calibration mapping. -/
theorem get_voltage_not_monotonic_at_handover :
    (0 : ℤ) ≤ 3999 ∧ (3999 : ℤ) ≤ 4000 ∧ (4000 : ℤ) ≤ 4089 ∧
      get_voltage_from_adc (some fun _ => 3300) 4000 <
        get_voltage_from_adc (some fun _ => 3300) 3999 := by
  refine ⟨by norm_num, by norm_num, by norm_num, ?_⟩
  simp only [get_voltage_from_adc]
  rw [if_neg (by norm_num), if_neg (by norm_num), if_pos (by norm_num)]
  norm_num

/-- C9 (amended): `get_voltage_from_adc` is monotonic non-decreasing
on codes `[0, 4089]` when no calibration mapping is available; with an
available calibration mapping it is monotonic provided the mapping is
non-decreasing on `[0, 3999]` and its voltage at code 3999 does not
exceed the linear model's voltage at the handover code 4000. -/
theorem get_voltage_monotonic :
    (∀ a b : ℤ, 0 ≤ a → a ≤ b → b ≤ 4089 →
      get_voltage_from_adc none a ≤ get_voltage_from_adc none b) ∧
    (∀ f : ℤ → ℤ, (∀ x y : ℤ, 0 ≤ x → x ≤ y → y ≤ 3999 → f x ≤ f y) →
      (f 3999 : ℚ) / 1000 ≤ (4000 : ℚ) * (33 / 10) / 4095 →
      ∀ a b : ℤ, 0 ≤ a → a ≤ b → b ≤ 4089 →
        get_voltage_from_adc (some f) a ≤ get_voltage_from_adc (some f) b) := by
  constructor
  · intro a b _ha hab hb
    simp only [get_voltage_from_adc]
    rw [if_neg (by omega), if_neg (by omega)]
    exact linear_voltage_mono hab
  · intro f hmono hhand a b ha hab hb
    simp only [get_voltage_from_adc]
    rcases lt_or_le b 4000 with hb4 | hb4
    · rw [if_pos (by omega), if_pos hb4]
      have : f a ≤ f b := hmono a b ha hab (by omega)
      have : (f a : ℚ) ≤ (f b : ℚ) := by exact_mod_cast this
      exact div_le_div_of_nonneg_right this (by norm_num)
    · rcases lt_or_le a 4000 with ha4 | ha4
      · rw [if_pos ha4, if_neg (by omega), if_neg (by omega)]
        have h1 : f a ≤ f 3999 := hmono a 3999 ha (by omega) (by omega)
        have h1 : (f a : ℚ) ≤ (f 3999 : ℚ) := by exact_mod_cast h1
        have h2 : (f a : ℚ) / 1000 ≤ (f 3999 : ℚ) / 1000 :=
          div_le_div_of_nonneg_right h1 (by norm_num)
        exact h2.trans (hhand.trans (linear_voltage_mono hb4))
      · rw [if_neg (by omega), if_neg (by omega), if_neg (by omega),
          if_neg (by omega)]
        exact linear_voltage_mono hab

theorem get_voltage_monotonic_witness :
    ((0 : ℤ) ≤ 100 ∧ (100 : ℤ) ≤ 200 ∧ (200 : ℤ) ≤ 4089 ∧
      get_voltage_from_adc none 100 ≤ get_voltage_from_adc none 200) ∧
    ((((fun _ : ℤ => (1000 : ℤ)) 3999 : ℚ)) / 1000 ≤ (4000 : ℚ) * (33 / 10) / 4095 ∧
      get_voltage_from_adc (some fun _ => 1000) 3999 ≤
        get_voltage_from_adc (some fun _ => 1000) 4089) :=
  ⟨⟨by norm_num, by norm_num, by norm_num,
    get_voltage_monotonic.1 100 200 (by norm_num) (by norm_num) (by norm_num)⟩,
   by norm_num,
   get_voltage_monotonic.2 (fun _ => 1000) (fun _ _ _ _ _ => le_refl 1000) (by norm_num)
     3999 4089 (by norm_num) (by norm_num) (by norm_num)⟩

/-! ### The EV pipeline: nonnegativity of the aggregate and clamping -/

lemma centerWeight_nonneg (r : Fin 5) (c : Fin 4) : 0 ≤ centerWeight r c := by
  unfold centerWeight
  split <;> norm_num

lemma filter_zone_nonneg (adc : ℤ) (lux : ℚ) : 0 ≤ filter_zone adc lux := by
  unfold filter_zone
  split
  · exact le_refl 0
  · split
    · exact le_refl 0
    · linarith [not_lt.mp (by assumption : ¬ lux < 10)]

lemma flatten_mem_nonneg {g : Grid} (hg : ∀ r c, 0 ≤ g r c) :
    ∀ x ∈ flatten g, 0 ≤ x := by
  intro x hx
  simp only [flatten, List.mem_flatMap, List.mem_map] at hx
  obtain ⟨r, _, c, _, rfl⟩ := hx
  exact hg r c

lemma centerWeight_total : (∑ r : Fin 5, ∑ c : Fin 4, centerWeight r c) = 26 := by
  simp [Fin.sum_univ_five, Fin.sum_univ_four, centerWeight,
    show ((3 : Fin 5) : ℕ) = 3 from rfl, show ((4 : Fin 5) : ℕ) = 4 from rfl,
    show ((3 : Fin 4) : ℕ) = 3 from rfl]
  norm_num

lemma matrix_count : (∑ _r : Fin 5, ∑ _c : Fin 4, (1 : ℚ)) = 20 := by
  simp [Fin.sum_univ_five, Fin.sum_univ_four]
  norm_num

lemma average_lux_center (g : Grid) :
    average_lux g METERING_CENTER_WEIGHTED =
      (∑ r : Fin 5, ∑ c : Fin 4, g r c * centerWeight r c) / 26 := by
  simp [average_lux, aggregate, METERING_CENTER_WEIGHTED, centerWeight_total,
    show (0 : ℚ) < 26 from by norm_num]

lemma average_lux_matrix (g : Grid) :
    average_lux g METERING_MATRIX = (∑ r : Fin 5, ∑ c : Fin 4, g r c) / 20 := by
  simp [average_lux, aggregate, METERING_MATRIX, METERING_CENTER_WEIGHTED,
    matrix_count, show (0 : ℚ) < 20 from by norm_num]
  norm_num

lemma average_lux_invalid {mode : ℤ} (g : Grid)
    (h0 : mode ≠ METERING_CENTER_WEIGHTED) (h1 : mode ≠ METERING_MATRIX)
    (h2 : mode ≠ METERING_SPOT) (h3 : mode ≠ METERING_HIGHLIGHT) :
    average_lux g mode = 0 := by
  simp [average_lux, aggregate, h0, h1, h2, h3]

lemma average_lux_nonneg {g : Grid} (hg : ∀ r c, 0 ≤ g r c) (mode : ℤ) :
    0 ≤ average_lux g mode := by
  by_cases h0 : mode = METERING_CENTER_WEIGHTED
  · rw [h0, average_lux_center]
    exact div_nonneg
      (Finset.sum_nonneg fun r _ => Finset.sum_nonneg fun c _ =>
        mul_nonneg (hg r c) (centerWeight_nonneg r c)) (by norm_num)
  by_cases h1 : mode = METERING_MATRIX
  · rw [h1, average_lux_matrix]
    exact div_nonneg
      (Finset.sum_nonneg fun r _ => Finset.sum_nonneg fun c _ => hg r c)
      (by norm_num)
  by_cases h2 : mode = METERING_SPOT
  · rw [h2, average_lux_spot]
    exact div_nonneg (add_nonneg (hg 2 1) (hg 2 2)) (by norm_num)
  by_cases h3 : mode = METERING_HIGHLIGHT
  · rw [h3, average_lux_highlight]
    refine div_nonneg (List.sum_nonneg fun x hx => ?_) (by norm_num)
    have hmem : x ∈ cSortDesc (flatten g) := List.mem_of_mem_take hx
    exact flatten_mem_nonneg hg x ((cSortDesc_perm (flatten g)).mem_iff.mp hmem)
  · rw [average_lux_invalid g h0 h1 h2 h3]

lemma clampEV_fin (x : ℝ) : clampEV (.fin x) = .fin (max (-6) (min 20 x)) := rfl

lemma clampEV_neginf : clampEV .neginf = .fin (-6) := rfl

/-- What the EV computation does to any nonnegative aggregate: at 0
the logarithm evaluates to `-inf` and the clamp turns it into exactly
-6; at a positive aggregate the result is `log2(q / 2.5)` clamped to
`[-6, 20]`. -/
lemma ev_from_aggregate_eval {q : ℚ} (hq : 0 ≤ q) :
    ev_from_aggregate q =
      .fin (if q ≤ 0 then -6
            else max (-6) (min 20 (Real.logb 2 ((q / (5 / 2) : ℚ) : ℝ)))) := by
  rcases eq_or_lt_of_le hq with h0 | hpos
  · rw [← h0]
    have hz : ((0 / (5 / 2) : ℚ) : ℝ) = 0 := by norm_num
    rw [ev_from_aggregate, hz]
    have : log2F (.fin 0) = .neginf := by
      simp [log2F]
    rw [this, clampEV_neginf, if_pos (le_refl (0 : ℚ))]
  · have hx : (0 : ℝ) < ((q / (5 / 2) : ℚ) : ℝ) := by
      rw [Rat.cast_pos]
      positivity
    have hlog : log2F (.fin ((q / (5 / 2) : ℚ) : ℝ)) =
        .fin (Real.logb 2 ((q / (5 / 2) : ℚ) : ℝ)) := by
      simp only [log2F]
      rw [if_pos hx]
    rw [ev_from_aggregate, hlog, clampEV_fin, if_neg (not_le.mpr hpos)]

/-- C1: for every metering mode and every measurement grid, the EV
pipeline yields exactly -6 when the aggregate lux is `<= 0` (the
`-inf` produced by `log2f(0)` is absorbed by the clamp, so no
infinite value reaches the result), and otherwise yields
`log2(aggregate / 2.5)` clamped to `[-6, 20]`; an aggregate of 0
yields -6 and an aggregate of 1e9 clamps to 20. -/
theorem ev_pipeline_clamped :
    (∀ (m : MeasGrid) (mode : ℤ),
      calculate_ev_from_detailed m mode =
        .fin (if average_lux (filter_grid m) mode ≤ 0 then -6
              else max (-6) (min 20 (Real.logb 2
                ((average_lux (filter_grid m) mode / (5 / 2) : ℚ) : ℝ))))) ∧
    ev_from_aggregate 0 = .fin (-6) ∧
    ev_from_aggregate (10 ^ 9) = .fin 20 := by
  refine ⟨fun m mode => ?_, ?_, ?_⟩
  · have hg : ∀ r c, 0 ≤ filter_grid m r c := fun r c => filter_zone_nonneg _ _
    exact ev_from_aggregate_eval (average_lux_nonneg hg mode)
  · rw [ev_from_aggregate_eval (le_refl (0 : ℚ))]
    norm_num
  · rw [ev_from_aggregate_eval (by norm_num : (0 : ℚ) ≤ 10 ^ 9)]
    rw [if_neg (by norm_num)]
    have hq : ((10 ^ 9 / (5 / 2) : ℚ) : ℝ) = 4 * 10 ^ 8 := by
      norm_num
    rw [hq]
    have h20 : (20 : ℝ) ≤ Real.logb 2 (4 * 10 ^ 8) := by
      rw [Real.le_logb_iff_rpow_le (by norm_num) (by norm_num)]
      have : (2 : ℝ) ^ (20 : ℝ) = 2 ^ (20 : ℕ) := by
        rw [← Real.rpow_natCast 2 20]
        norm_num
      rw [this]
      norm_num
    rw [min_eq_left h20, max_eq_right (by norm_num : (-6 : ℝ) ≤ 20)]

/-! ### The initial calibration state and the shutter-speed product -/

lemma divF_fin_ne {a b : ℝ} (hb : b ≠ 0) :
    divF (.fin a) (.fin b) = .fin (a / b) := by
  simp only [divF]
  rw [if_neg hb]

lemma divF_fin_zero_pos {a : ℝ} (ha : 0 < a) :
    divF (.fin a) (.fin 0) = .posinf := by
  simp [divF, ha]

lemma mulF_fin_fin (a b : ℝ) : mulF (.fin a) (.fin b) = .fin (a * b) := rfl

lemma mulF_fin_posinf_pos {a : ℝ} (ha : 0 < a) :
    mulF (.fin a) .posinf = .posinf := by
  simp only [mulF]
  rw [if_pos ha]

lemma mulF_posinf_fin_zero : mulF .posinf (.fin 0) = .nan := by
  simp only [mulF]
  rw [if_neg (lt_irrefl (0 : ℝ)), if_neg (lt_irrefl (0 : ℝ))]

/-- At `iso = 0` the C float expression divides by `+0`: the shutter
product evaluates to `finite * +inf * 0 = NaN` in the initial state. -/
lemma initial_shutter_nan (ev : ℚ) :
    calculate_shutter_speed shutter_speed_calibration_init ev 0 = .nan := by
  rw [calculate_shutter_speed]
  rw [show ((0 : ℤ) : ℝ) = 0 from by norm_num,
    divF_fin_zero_pos (by norm_num : (0 : ℝ) < 100),
    mulF_fin_posinf_pos (Real.rpow_pos_of_pos (by norm_num) _),
    show ((shutter_speed_calibration_init : ℚ) : ℝ) = 0 from by
      norm_num [shutter_speed_calibration_init],
    mulF_posinf_fin_zero]

/-- C10 counterexample: in the initial state (calibration 0.0), at
`ev = 0` and `iso = 0` the C expression computes
`1 * (100 / +0) * 0 = +inf * 0 = NaN`, not 0, so the claim's "returns
0 for every EV and ISO" fails at `iso = 0`. -/
theorem initial_shutter_speed_not_zero_at_iso_zero :
    calculate_shutter_speed shutter_speed_calibration_init 0 0 = .nan ∧
      calculate_shutter_speed shutter_speed_calibration_init 0 0 ≠ .fin 0 :=
  ⟨initial_shutter_nan 0, by
    rw [initial_shutter_nan 0]
    exact fun hc => FP.noConfusion hc⟩

/-- C10 (amended): the shutter-speed calibration scalar is initialized
to 0.0; therefore in the initial state `calculate_shutter_speed`
returns 0 for every EV and every nonzero ISO (at `iso = 0` the C float
arithmetic yields NaN instead), and the recommendation formatter takes
the fraction branch (dividing 1 by the zero shutter seconds) for every
EV and ISO. -/
theorem initial_calibration_zero_shutter :
    shutter_speed_calibration_init = 0 ∧
    (∀ (ev : ℚ) (iso : ℤ), iso ≠ 0 →
      calculate_shutter_speed shutter_speed_calibration_init ev iso = .fin 0) ∧
    (∀ (ev : ℚ) (iso : ℤ),
      ¬ recommendation_takes_seconds_branch shutter_speed_calibration_init ev iso) ∧
    divF (.fin 1) (.fin 0) = .posinf := by
  have hfin : ∀ (ev : ℚ) (iso : ℤ), iso ≠ 0 →
      calculate_shutter_speed shutter_speed_calibration_init ev iso = .fin 0 := by
    intro ev iso hiso
    have hiso' : ((iso : ℤ) : ℝ) ≠ 0 := Int.cast_ne_zero.mpr hiso
    rw [calculate_shutter_speed, divF_fin_ne hiso', mulF_fin_fin, mulF_fin_fin]
    rw [show ((shutter_speed_calibration_init : ℚ) : ℝ) = 0 from by
      norm_num [shutter_speed_calibration_init]]
    rw [mul_zero]
  refine ⟨rfl, hfin, fun ev iso => ?_, divF_fin_zero_pos (by norm_num)⟩
  by_cases hiso : iso = 0
  · subst hiso
    rw [recommendation_takes_seconds_branch, initial_shutter_nan ev]
    simp [geF]
  · rw [recommendation_takes_seconds_branch, hfin ev iso hiso]
    simp only [geF]
    norm_num

theorem initial_calibration_zero_shutter_witness :
    (100 : ℤ) ≠ 0 ∧
      calculate_shutter_speed shutter_speed_calibration_init 5 100 = .fin 0 ∧
      ¬ recommendation_takes_seconds_branch shutter_speed_calibration_init 5 100 :=
  ⟨by norm_num,
   initial_calibration_zero_shutter.2.1 5 100 (by norm_num),
   initial_calibration_zero_shutter.2.2.1 5 100⟩

end LightMeter
